import Mathlib

/-!
Verification of the Pooling Calculator core (compute.py, hierarchical.py,
prepooling.py, models.py, config.py) against its specification.

Numbers are modelled as exact rationals; decimal literals of the source
become the corresponding rationals.  Fallible Python functions (those that
raise) become functions into `Except String`.  DataFrames become lists of
records whose fields are the columns the modelled functions touch; a column
that may be absent per-row is an `Option`.  Pydantic model construction
with field constraints and validators is modelled by smart constructors
into `Except String`.
-/

/- ===================== config.py ===================== -/

/-- Average molecular weight per base pair of double-stranded DNA (g/mol),
config.MW_PER_BP. -/
def MW_PER_BP : ℚ := 660

/-- Stock-volume threshold below which a 10x pre-dilution is recommended,
config.PRE_DILUTE_THRESHOLD_10X (0.2 µl). -/
def PRE_DILUTE_THRESHOLD_10X : ℚ := 0.2

/-- Stock-volume threshold below which a 5x pre-dilution is recommended,
config.PRE_DILUTE_THRESHOLD_5X (0.795 µl). -/
def PRE_DILUTE_THRESHOLD_5X : ℚ := 0.795

/- ===================== compute.py: molarity ===================== -/

/-- Error message of compute_molarity_from_concentration for a non-positive
concentration. -/
def msgConcentrationPositive : String := "Concentration must be > 0"

/-- Error message of compute_molarity_from_concentration for a non-positive
fragment size. -/
def msgFragmentSizePositive : String := "Fragment size must be > 0"

/-- compute.compute_molarity_from_concentration: convert mass concentration
(ng/µl) and fragment size (bp) to molarity (nM); raises ValueError on
non-positive inputs. -/
def compute_molarity_from_concentration (concentration_ng_ul fragment_size_bp : ℚ) :
    Except String ℚ :=
  if concentration_ng_ul ≤ 0 then Except.error msgConcentrationPositive
  else if fragment_size_bp ≤ 0 then Except.error msgFragmentSizePositive
  else Except.ok (concentration_ng_ul * 1000000 / (MW_PER_BP * fragment_size_bp))

/-- Input row of compute_effective_molarity: the columns it reads.  The
Empirical Library nM entry is `none` when the column is absent or the cell
holds no value (NaN); both cases take the same branch in the source. -/
structure MolarityInputRow where
  finalNgUl : ℚ
  adjustedPeakSize : ℚ
  empiricalLibraryNM : Option ℚ
deriving DecidableEq

/-- Columns added by compute_effective_molarity. -/
structure MolarityOutputRow where
  calculatedNM : ℚ
  effectiveNM : ℚ
  adjustedLibNM : ℚ
deriving DecidableEq

/-- The per-row effective-molarity choice of compute_effective_molarity:
the empirical value when present and strictly positive, else the
calculated value. -/
def effectiveChoice (empirical : Option ℚ) (calculated : ℚ) : ℚ :=
  match empirical with
  | some e => if 0 < e then e else calculated
  | none => calculated

/-- compute.compute_effective_molarity: fill Calculated nM for every row
(raising on the first row whose inputs are invalid), then Effective nM
(Use) by the empirical override, and Adjusted lib nM equal to it. -/
def compute_effective_molarity : List MolarityInputRow → Except String (List MolarityOutputRow)
  | [] => Except.ok []
  | r :: rs =>
    match compute_molarity_from_concentration r.finalNgUl r.adjustedPeakSize with
    | Except.error e => Except.error e
    | Except.ok nm =>
      match compute_effective_molarity rs with
      | Except.error e => Except.error e
      | Except.ok outs =>
        Except.ok ({ calculatedNM := nm,
                     effectiveNM := effectiveChoice r.empiricalLibraryNM nm,
                     adjustedLibNM := effectiveChoice r.empiricalLibraryNM nm } :: outs)

/- ===================== compute.py: pool volumes ===================== -/

/-- Input row of compute_pool_volumes: the columns it reads.  Total Volume
is the optional per-library available-volume column (only used for a
flag). -/
structure PoolInputRow where
  libraryName : String
  projectID : String
  adjustedLibNM : ℚ
  targetReadsM : ℚ
  totalVolume : Option ℚ
deriving DecidableEq

/-- Row of the DataFrame returned by compute_pool_volumes (the flag text
column, which feeds nothing downstream, is not modelled). -/
structure PoolOutputRow where
  libraryName : String
  projectID : String
  adjustedLibNM : ℚ
  targetReadsM : ℚ
  totalVolume : Option ℚ
  stockVolume : ℚ
  preDiluteFactor : ℚ
  finalVolume : ℚ
  poolFraction : ℚ
  expectedReadsM : Option ℚ
deriving DecidableEq

/-- Step 1 of compute_pool_volumes: stock volume
scaling_factor / adjustedLibNM * targetReadsM. -/
def stockVolume (scaling_factor : ℚ) (r : PoolInputRow) : ℚ :=
  scaling_factor / r.adjustedLibNM * r.targetReadsM

/-- compute.calculate_pre_dilute_factor: pre-dilution factor from the stock
volume. -/
def calculate_pre_dilute_factor (stock_vol : ℚ) : ℚ :=
  if stock_vol < PRE_DILUTE_THRESHOLD_10X then 10
  else if stock_vol < PRE_DILUTE_THRESHOLD_5X then 5
  else 1

/-- Step 5 of compute_pool_volumes: the molar contribution
stockVolume * adjustedLibNM of one row. -/
def molContribution (scaling_factor : ℚ) (r : PoolInputRow) : ℚ :=
  stockVolume scaling_factor r * r.adjustedLibNM

/-- Step 5 of compute_pool_volumes: the sum of molar contributions over
exactly the rows of this call. -/
def totalMolContribution (scaling_factor : ℚ) (rows : List PoolInputRow) : ℚ :=
  (rows.map (molContribution scaling_factor)).sum

/-- One output row of compute_pool_volumes, given the total molar
contribution of the call. -/
def mkPoolOutputRow (scaling_factor total_mol : ℚ) (total_reads_m : Option ℚ)
    (r : PoolInputRow) : PoolOutputRow :=
  { libraryName := r.libraryName
    projectID := r.projectID
    adjustedLibNM := r.adjustedLibNM
    targetReadsM := r.targetReadsM
    totalVolume := r.totalVolume
    stockVolume := stockVolume scaling_factor r
    preDiluteFactor := calculate_pre_dilute_factor (stockVolume scaling_factor r)
    finalVolume := stockVolume scaling_factor r * calculate_pre_dilute_factor (stockVolume scaling_factor r)
    poolFraction := molContribution scaling_factor r / total_mol
    expectedReadsM := total_reads_m.map (fun t => molContribution scaling_factor r / total_mol * t) }

/-- Error message of compute_pool_volumes for a non-positive scaling
factor. -/
def msgScalingFactorPositive : String := "Scaling factor must be > 0"

/-- Error message of compute_pool_volumes for a negative minimum volume. -/
def msgMinVolumeNonneg : String := "Min volume must be >= 0"

/-- Error message of compute_pool_volumes for a negative maximum volume. -/
def msgMaxVolumeNonneg : String := "Max volume must be >= 0"

/-- The max_volume_ul validity test of compute_pool_volumes: an error only
when a maximum is supplied and negative. -/
def invalidMaxVolume : Option ℚ → Bool
  | some m => decide (m < 0)
  | none => false

/-- compute.compute_pool_volumes: validate parameters, then derive stock
volume, pre-dilution factor, final volume, pool fraction (normalized over
exactly the rows passed in) and, when total_reads_m is given, expected
reads, for every row. -/
def compute_pool_volumes (rows : List PoolInputRow) (scaling_factor min_volume_ul : ℚ)
    (max_volume_ul : Option ℚ) (total_reads_m : Option ℚ) :
    Except String (List PoolOutputRow) :=
  if scaling_factor ≤ 0 then Except.error msgScalingFactorPositive
  else if min_volume_ul < 0 then Except.error msgMinVolumeNonneg
  else if invalidMaxVolume max_volume_ul then Except.error msgMaxVolumeNonneg
  else Except.ok (rows.map
    (mkPoolOutputRow scaling_factor (totalMolContribution scaling_factor rows) total_reads_m))

/- ===================== compute.py: summarize_by_project ===================== -/

/-- Input row of summarize_by_project: the columns it aggregates. -/
structure SummaryInputRow where
  projectID : String
  stockVolume : ℚ
  poolFraction : ℚ
deriving DecidableEq

/-- Input frame of summarize_by_project; hasProjectID models whether the
Project ID column exists (the other aggregated columns are present in the
normal pipeline output and are modelled structurally). -/
structure SummaryFrame where
  hasProjectID : Bool
  rows : List SummaryInputRow
deriving DecidableEq

/-- One output row of summarize_by_project. -/
structure ProjectSummaryRow where
  projectID : String
  numberOfLibraries : Nat
  totalVolume : ℚ
  poolFraction : ℚ
deriving DecidableEq

/-- First-occurrence order of the distinct values of a list (the order in
which pandas first meets each group key, and the key order of a Python
Counter or set built from the list). -/
def firstOccurrences {α : Type} [DecidableEq α] : List α → List α
  | [] => []
  | a :: as => a :: (firstOccurrences as).filter (fun x => x ≠ a)

/-- Python string comparison (code-point lexicographic), on the character
lists: the order pandas sorts object-dtype group keys by. -/
def pyLexLe : List Char → List Char → Bool
  | [], _ => true
  | _ :: _, [] => false
  | a :: as, b :: bs =>
    if a.toNat < b.toNat then true
    else if b.toNat < a.toNat then false
    else pyLexLe as bs

/-- Python string less-or-equal on strings. -/
def pyStrLe (a b : String) : Bool :=
  pyLexLe a.data b.data

/-- Iteration order of pandas groupby with its default sort=True: the
distinct keys in ascending Python string order. -/
def pandasGroupKeys (keys : List String) : List String :=
  List.insertionSort (fun a b : String => pyStrLe a b = true) (firstOccurrences keys)

/-- Error message of summarize_by_project when the Project ID column is
absent. -/
def msgMissingProjectID : String := "Missing required column: Project ID"

/-- compute.summarize_by_project: one aggregate row per distinct project
id, in the order pandas groupby yields the groups. -/
def summarize_by_project (df : SummaryFrame) : Except String (List ProjectSummaryRow) :=
  if df.hasProjectID = false then Except.error msgMissingProjectID
  else Except.ok ((pandasGroupKeys (df.rows.map SummaryInputRow.projectID)).map (fun k =>
    { projectID := k
      numberOfLibraries := (df.rows.filter (fun r => r.projectID = k)).length
      totalVolume := ((df.rows.filter (fun r => r.projectID = k)).map SummaryInputRow.stockVolume).sum
      poolFraction := ((df.rows.filter (fun r => r.projectID = k)).map SummaryInputRow.poolFraction).sum }))

/- ===================== hierarchical.py ===================== -/

/-- A row as seen by create_subpool_definitions: its DataFrame index (the
pandas index label, a RangeIndex position for freshly loaded tables) and
the value of the grouping column.  Other columns ride along untouched. -/
structure SubpoolInputRow where
  idx : Nat
  groupValue : String
deriving DecidableEq

/-- The SubPool ID labels generated for one group by
create_subpool_definitions: one label per member row, emitted group-chunk
by group-chunk.  A group at most as large as the capacity yields its size
many copies of "(group)_pool"; a larger group is sub-grouped by
idx / capacity (pandas groupby over group_df.index // capacity, iterating
buckets in ascending order) and bucket number i (1-based) yields
"(group)_pool_i" once per bucket member. -/
def chunkLabels (group_name : String) (max_libraries_per_subpool : Nat)
    (grp : List SubpoolInputRow) : List String :=
  if grp.length ≤ max_libraries_per_subpool then
    List.replicate grp.length (group_name ++ "_pool")
  else
    let buckets := List.insertionSort (fun a b : Nat => a ≤ b)
      (firstOccurrences (grp.map (fun r => r.idx / max_libraries_per_subpool)))
    buckets.enum.flatMap (fun p =>
      List.replicate (grp.countP (fun r => decide (r.idx / max_libraries_per_subpool = p.2)))
        (group_name ++ "_pool_" ++ toString (p.1 + 1)))

/-- The whole SubPool ID list built by create_subpool_definitions: group
keys in the order pandas groupby yields them (sorted ascending), each
contributing its chunk labels. -/
def subpoolIdsSegments (max_libraries_per_subpool : Nat)
    (rows : List SubpoolInputRow) : List String :=
  (pandasGroupKeys (rows.map SubpoolInputRow.groupValue)).flatMap (fun g =>
    chunkLabels g max_libraries_per_subpool
      (rows.filter (fun r => r.groupValue = g)))

/-- hierarchical.create_subpool_definitions: assign the generated SubPool
ID list positionally to the rows of the frame (the source writes the
accumulated list into a new column of the unchanged frame).  Presence of
the grouping column is structural here. -/
def create_subpool_definitions (rows : List SubpoolInputRow)
    (max_libraries_per_subpool : Nat) : List (SubpoolInputRow × String) :=
  rows.zip (subpoolIdsSegments max_libraries_per_subpool rows)

/-- models.SubPoolRecord (creation timestamp and custom grouping metadata
are not modelled). -/
structure SubPoolRecord where
  subpool_id : String
  member_libraries : List String
  calculated_nm : ℚ
  total_volume_ul : ℚ
  target_reads_m : ℚ
  parent_project_id : Option String
deriving DecidableEq

/-- Error message standing for the pydantic ValidationError raised when a
SubPoolRecord field constraint fails. -/
def msgSubPoolRecordInvalid : String := "SubPoolRecord field constraint violated"

/-- Pydantic construction of models.SubPoolRecord: subpool_id and
member_libraries must be non-empty, calculated_nm, total_volume_ul and
target_reads_m strictly positive (their Field(gt=0) constraints). -/
def mkSubPoolRecord (subpool_id : String) (member_libraries : List String)
    (calculated_nm total_volume_ul target_reads_m : ℚ)
    (parent_project_id : Option String) : Except String SubPoolRecord :=
  if subpool_id.length < 1 then Except.error msgSubPoolRecordInvalid
  else if member_libraries.length < 1 then Except.error msgSubPoolRecordInvalid
  else if calculated_nm ≤ 0 then Except.error msgSubPoolRecordInvalid
  else if total_volume_ul ≤ 0 then Except.error msgSubPoolRecordInvalid
  else if target_reads_m ≤ 0 then Except.error msgSubPoolRecordInvalid
  else Except.ok { subpool_id := subpool_id, member_libraries := member_libraries,
                   calculated_nm := calculated_nm, total_volume_ul := total_volume_ul,
                   target_reads_m := target_reads_m, parent_project_id := parent_project_id }

/-- The pandas merge of compute_subpool_properties on Library Name: for
each library row in order, every volume row bearing the same name. -/
def mergeOnLibraryName (df_libraries : List PoolInputRow) (df_volumes : List PoolOutputRow) :
    List (PoolInputRow × PoolOutputRow) :=
  df_libraries.flatMap (fun lr =>
    (df_volumes.filter (fun v => v.libraryName = lr.libraryName)).map (fun v => (lr, v)))

/-- hierarchical.compute_subpool_properties: fold the member volumes into a
SubPoolRecord with total volume, molarity = total nanomoles / total volume
(0 when the volume is 0), summed target reads, and the first member row's
project id.  Column checks of the source are structural here. -/
def compute_subpool_properties (df_libraries : List PoolInputRow)
    (df_volumes : List PoolOutputRow) (subpool_id : String) : Except String SubPoolRecord :=
  let merged := mergeOnLibraryName df_libraries df_volumes
  let total_volume_ul := (merged.map (fun p => p.2.finalVolume)).sum
  let total_nanomoles := (merged.map (fun p => p.1.adjustedLibNM * p.2.finalVolume)).sum
  let calculated_nm := if 0 < total_volume_ul then total_nanomoles / total_volume_ul else 0
  let target_reads_m := (merged.map (fun p => p.1.targetReadsM)).sum
  mkSubPoolRecord subpool_id (merged.map (fun p => p.1.libraryName))
    calculated_nm total_volume_ul target_reads_m
    ((merged.head?).map (fun p => p.1.projectID))

/- ===================== prepooling.py ===================== -/

/-- The prepool_id create_prepool_from_selection derives from the display
name: Python prepool_name.lower().replace(" ", "_"), modelled per
character (lowercase every character, then turn spaces into
underscores). -/
def normalizePrepoolId (s : String) : String :=
  String.mk ((s.data.map Char.toLower).map (fun c => if c = ' ' then '_' else c))

/-- models.PrePoolDefinition (timestamp and notes are not modelled; the
names carried here are assumed already stripped of surrounding
whitespace, as its validators guarantee). -/
structure PrePoolDefinition where
  prepool_id : String
  prepool_name : String
  member_library_names : List String
deriving DecidableEq

/-- models.PrePoolCalculationResult; member_volumes models
member_volumes_json. -/
structure PrePoolCalculationResult where
  prepool_definition : PrePoolDefinition
  calculated_nm : ℚ
  total_volume_ul : ℚ
  target_reads_m : ℚ
  member_volumes : List PoolOutputRow
deriving DecidableEq

/-- Error message standing for the pydantic ValidationError raised when a
PrePoolCalculationResult field constraint fails. -/
def msgPrePoolResultInvalid : String := "PrePoolCalculationResult field constraint violated"

/-- Pydantic construction of models.PrePoolCalculationResult: its
calculated_nm, total_volume_ul and target_reads_m carry Field(gt=0)
constraints. -/
def mkPrePoolCalculationResult (d : PrePoolDefinition)
    (calculated_nm total_volume_ul target_reads_m : ℚ)
    (member_volumes : List PoolOutputRow) : Except String PrePoolCalculationResult :=
  if calculated_nm ≤ 0 then Except.error msgPrePoolResultInvalid
  else if total_volume_ul ≤ 0 then Except.error msgPrePoolResultInvalid
  else if target_reads_m ≤ 0 then Except.error msgPrePoolResultInvalid
  else Except.ok { prepool_definition := d, calculated_nm := calculated_nm,
                   total_volume_ul := total_volume_ul, target_reads_m := target_reads_m,
                   member_volumes := member_volumes }

/-- Error message of create_prepool_from_selection when no selected
library is present. -/
def msgNoLibrariesFound : String := "No libraries found matching selection"

/-- Error message of create_prepool_from_selection when some selected
libraries are missing. -/
def msgSomeLibrariesNotFound : String := "Some selected libraries not found"

/-- prepooling.create_prepool_from_selection: filter the frame to the
selected names, run compute_pool_volumes over just them (no total-reads
projection), and wrap the pre-pool properties: total volume as the summed
final volumes, molarity as summed (target reads / 10) over total volume
(0 when the volume is 0), summed target reads.  The fresh
PrePoolDefinition it stores derives prepool_id from prepool_name. -/
def create_prepool_from_selection (df : List PoolInputRow)
    (selected_library_names : List String) (prepool_name : String)
    (scaling_factor min_volume_ul : ℚ) (max_volume_ul : Option ℚ) :
    Except String PrePoolCalculationResult :=
  let selected_df := df.filter (fun r => selected_library_names.contains r.libraryName)
  if selected_df.length = 0 then Except.error msgNoLibrariesFound
  else if selected_df.length ≠ selected_library_names.length then
    Except.error msgSomeLibrariesNotFound
  else
    match compute_pool_volumes selected_df scaling_factor min_volume_ul max_volume_ul none with
    | Except.error e => Except.error e
    | Except.ok prepool_volumes_df =>
      let total_volume_ul := (prepool_volumes_df.map PoolOutputRow.finalVolume).sum
      let total_pmol := (prepool_volumes_df.map (fun r => r.targetReadsM / 10)).sum
      let calculated_nm := if 0 < total_volume_ul then total_pmol / total_volume_ul else 0
      let target_reads_m := (prepool_volumes_df.map PoolOutputRow.targetReadsM).sum
      mkPrePoolCalculationResult
        { prepool_id := normalizePrepoolId prepool_name, prepool_name := prepool_name,
          member_library_names := selected_library_names }
        calculated_nm total_volume_ul target_reads_m prepool_volumes_df

/-- The concatenation of every definition's member list, in definition
order (all_prepool_libraries in compute_with_prepools). -/
def allPrepoolLibraries (prepool_definitions : List PrePoolDefinition) : List String :=
  prepool_definitions.flatMap PrePoolDefinition.member_library_names

/-- The duplicate report of compute_with_prepools: every name whose count
in the concatenated member lists exceeds 1, in first-occurrence order
(the key order of the Python Counter). -/
def duplicatesIn (libs : List String) : List String :=
  (firstOccurrences libs).filter (fun x => decide (1 < libs.count x))

/-- Error raised by compute_with_prepools.  The duplicate case carries the
reported names; subError wraps errors propagated from the helpers it
calls (including pydantic validation of the plan). -/
inductive PrePoolingError where
  | atLeastOneRequired : PrePoolingError
  | multiplePrepools (duplicates : List String) : PrePoolingError
  | subError (msg : String) : PrePoolingError
deriving DecidableEq

/-- The synthetic super-library row compute_with_prepools builds from one
pre-pool result. -/
def prepoolSyntheticRow (result : PrePoolCalculationResult) : PoolInputRow :=
  { libraryName := result.prepool_definition.prepool_id
    projectID := "PrePool"
    adjustedLibNM := result.calculated_nm
    targetReadsM := result.target_reads_m
    totalVolume := some result.total_volume_ul }

/-- The rows of the frame not claimed by any pre-pool definition
(remaining_df in compute_with_prepools). -/
def prepoolStandaloneRows (df : List PoolInputRow)
    (prepool_definitions : List PrePoolDefinition) : List PoolInputRow :=
  df.filter (fun r => (allPrepoolLibraries prepool_definitions).contains r.libraryName = false)

/-- The combined table compute_with_prepools hands to its final
compute_pool_volumes run: the standalone rows followed by one synthetic
row per pre-pool (when no row remains the source takes just the synthetic
rows, which coincides with this concatenation). -/
def prepoolCombinedTable (df : List PoolInputRow)
    (prepool_definitions : List PrePoolDefinition)
    (prepool_results : List PrePoolCalculationResult) : List PoolInputRow :=
  prepoolStandaloneRows df prepool_definitions ++ prepool_results.map prepoolSyntheticRow

/-- models.PrePoolingPlan (timestamp and parameters are not modelled). -/
structure PrePoolingPlan where
  prepools : List PrePoolCalculationResult
  remaining_libraries : List PoolInputRow
  final_pool : List PoolOutputRow
  total_libraries : Nat
  libraries_in_prepools : Nat
  standalone_libraries : Nat
deriving DecidableEq

/-- Error message standing for the pydantic ValidationError of
PrePoolingPlan.validate_library_counts. -/
def msgLibraryCountsDoNotSum : String := "Library counts do not sum"

/-- Pydantic construction of models.PrePoolingPlan with its
validate_library_counts field validator.  Pydantic v2 runs the validator
once for each of its two attached fields, in field declaration order, and
info.data holds only the fields already validated: while
libraries_in_prepools is validated, neither count is in info.data yet, so
both read as the literal 0 default of the data.get calls; while
standalone_libraries is validated, only libraries_in_prepools is
available and the standalone count reads as 0. -/
def mkPrePoolingPlan (prepools : List PrePoolCalculationResult)
    (remaining_libraries : List PoolInputRow) (final_pool : List PoolOutputRow)
    (total_libraries libraries_in_prepools standalone_libraries : Nat) :
    Except String PrePoolingPlan :=
  if 0 + 0 ≠ total_libraries then Except.error msgLibraryCountsDoNotSum
  else if libraries_in_prepools + 0 ≠ total_libraries then Except.error msgLibraryCountsDoNotSum
  else Except.ok { prepools := prepools, remaining_libraries := remaining_libraries,
                   final_pool := final_pool, total_libraries := total_libraries,
                   libraries_in_prepools := libraries_in_prepools,
                   standalone_libraries := standalone_libraries }

/-- Step 2 of compute_with_prepools: calculate each pre-pool in definition
order, propagating the first error. -/
def computePrepoolResults (df : List PoolInputRow)
    (prepool_definitions : List PrePoolDefinition)
    (scaling_factor min_volume_ul : ℚ) (max_volume_ul : Option ℚ) :
    Except String (List PrePoolCalculationResult) :=
  match prepool_definitions with
  | [] => Except.ok []
  | d :: ds =>
    match create_prepool_from_selection df d.member_library_names d.prepool_name
        scaling_factor min_volume_ul max_volume_ul with
    | Except.error e => Except.error e
    | Except.ok r =>
      match computePrepoolResults df ds scaling_factor min_volume_ul max_volume_ul with
      | Except.error e => Except.error e
      | Except.ok rs => Except.ok (r :: rs)

/-- prepooling.compute_with_prepools: reject an empty definition list,
then names claimed by more than one definition (reporting all of them),
compute each pre-pool, combine standalone rows with the synthetic
super-library rows, run the final single-stage pass, and construct the
plan (whose counts are the frame length, the number of distinct claimed
names and the number of distinct unclaimed frame names).  The
required-column check of the source is structural here. -/
def compute_with_prepools (df : List PoolInputRow)
    (prepool_definitions : List PrePoolDefinition)
    (scaling_factor min_volume_ul : ℚ) (max_volume_ul total_reads_m : Option ℚ) :
    Except PrePoolingError PrePoolingPlan :=
  if prepool_definitions.isEmpty then Except.error PrePoolingError.atLeastOneRequired
  else
    let all_prepool_libraries := allPrepoolLibraries prepool_definitions
    if all_prepool_libraries.length ≠ (firstOccurrences all_prepool_libraries).length then
      Except.error (PrePoolingError.multiplePrepools (duplicatesIn all_prepool_libraries))
    else
      match computePrepoolResults df prepool_definitions scaling_factor min_volume_ul
          max_volume_ul with
      | Except.error e => Except.error (PrePoolingError.subError e)
      | Except.ok prepool_results =>
        match compute_pool_volumes (prepoolCombinedTable df prepool_definitions prepool_results)
            scaling_factor min_volume_ul max_volume_ul total_reads_m with
        | Except.error e => Except.error (PrePoolingError.subError e)
        | Except.ok final_pool_df =>
          match mkPrePoolingPlan prepool_results
              (prepoolStandaloneRows df prepool_definitions) final_pool_df
              df.length
              (firstOccurrences all_prepool_libraries).length
              ((firstOccurrences (df.map PoolInputRow.libraryName)).filter
                (fun n => all_prepool_libraries.contains n = false)).length with
          | Except.error e => Except.error (PrePoolingError.subError e)
          | Except.ok plan => Except.ok plan

/- ===================== example builders ===================== -/

/-- One contiguous block of rows for create_subpool_definitions: n rows of
one group with consecutive indices from start. -/
def groupBlock (g : String) (start n : Nat) : List SubpoolInputRow :=
  (List.range n).map (fun i => { idx := start + i, groupValue := g })

/-- Number of output rows of create_subpool_definitions carrying a given
SubPool ID. -/
def countLabel (lbl : String) (out : List (SubpoolInputRow × String)) : Nat :=
  (out.filter (fun p => p.2 = lbl)).length

/-- A one-library example input: effective molarity 1 nM, target 1 M
reads. -/
def examplePoolRow : PoolInputRow :=
  { libraryName := "Lib1", projectID := "P1", adjustedLibNM := 1,
    targetReadsM := 1, totalVolume := none }

/-- A second example input: effective molarity 2 nM, target 4 M reads. -/
def examplePoolRow2 : PoolInputRow :=
  { libraryName := "Lib2", projectID := "P1", adjustedLibNM := 2,
    targetReadsM := 4, totalVolume := none }

/-- The output row of compute_pool_volumes for examplePoolRow alone at
scaling factor 1. -/
def exampleOutRow : PoolOutputRow :=
  mkPoolOutputRow 1 (totalMolContribution 1 [examplePoolRow]) none examplePoolRow

/-- Example library with a positive empirical molarity: 66 ng/µl, 100 bp,
5 nM measured. -/
def exampleMolarityRow : MolarityInputRow :=
  { finalNgUl := 66, adjustedPeakSize := 100, empiricalLibraryNM := some 5 }

/-- The molarity columns computed for exampleMolarityRow: the calculated
value is always filled, the positive empirical value overrides it. -/
def exampleMolarityOut : MolarityOutputRow :=
  { calculatedNM := 66 * 1000000 / (MW_PER_BP * 100), effectiveNM := 5, adjustedLibNM := 5 }

/-- Example summarize_by_project input whose project ids first occur in
the order B then A. -/
def exampleSummaryFrame : SummaryFrame :=
  { hasProjectID := true
    rows := [{ projectID := "B", stockVolume := 1, poolFraction := 1 },
             { projectID := "A", stockVolume := 2, poolFraction := 0 }] }

/-- The summary rows summarize_by_project yields for exampleSummaryFrame. -/
def exampleSummaryOutput : List ProjectSummaryRow :=
  (summarize_by_project exampleSummaryFrame).toOption.getD []

/-- Example pre-pool definition claiming LibA and LibB. -/
def exampleDupDef1 : PrePoolDefinition :=
  { prepool_id := "p1", prepool_name := "P 1", member_library_names := ["LibA", "LibB"] }

/-- Example pre-pool definition claiming LibB, LibC and LibA, so both LibA
and LibB are claimed twice across the two definitions. -/
def exampleDupDef2 : PrePoolDefinition :=
  { prepool_id := "p2", prepool_name := "P 2", member_library_names := ["LibB", "LibC", "LibA"] }

/-- One row of the three-library example frame used to exercise plan
construction: molarity 1 nM, target 10 M reads, 100 µl available. -/
def examplePlanRow (n : String) : PoolInputRow :=
  { libraryName := n, projectID := "P", adjustedLibNM := 1, targetReadsM := 10,
    totalVolume := some 100 }

/-- Three-library example frame A, B, C. -/
def examplePlanDf : List PoolInputRow :=
  [examplePlanRow "A", examplePlanRow "B", examplePlanRow "C"]

/-- Example pre-pool definition claiming A and B of examplePlanDf, leaving
C standalone. -/
def examplePlanDef : PrePoolDefinition :=
  { prepool_id := "pp1", prepool_name := "pp1", member_library_names := ["A", "B"] }

/-- A single library at 2 nM with 10 M target reads, for comparing the
pre-pool and sub-pool molarity conventions on the same member set. -/
def exampleC4Row : PoolInputRow :=
  { libraryName := "D", projectID := "P", adjustedLibNM := 2, targetReadsM := 10,
    totalVolume := some 100 }

/-- The member volume rows compute_pool_volumes yields for exampleC4Row at
scaling factor 1 (stock volume 5 µl, factor 1, final volume 5 µl). -/
def exampleC4Volumes : List PoolOutputRow :=
  (compute_pool_volumes [exampleC4Row] 1 0 none none).toOption.getD []

/-- The pre-pool result create_prepool_from_selection computes for the
one-member selection of exampleC4Row at scaling factor 1. -/
def exampleC4Result : PrePoolCalculationResult :=
  { prepool_definition :=
      { prepool_id := "pp", prepool_name := "pp", member_library_names := ["D"] }
    calculated_nm := 1/5
    total_volume_ul := 5
    target_reads_m := 10
    member_volumes :=
      [{ libraryName := "D", projectID := "P", adjustedLibNM := 2, targetReadsM := 10,
         totalVolume := some 100, stockVolume := 5, preDiluteFactor := 1, finalVolume := 5,
         poolFraction := 1, expectedReadsM := none }] }

/-- A pre-pool definition whose stored id PP7 differs from the normalized
form of its display name My Pool. -/
def exampleC7Def : PrePoolDefinition :=
  { prepool_id := "PP7", prepool_name := "My Pool", member_library_names := ["A", "B"] }

/-- The pre-pool results computed for examplePlanDf with the single
definition examplePlanDef. -/
def exampleC7Results : List PrePoolCalculationResult :=
  (computePrepoolResults examplePlanDf [examplePlanDef] 1 0 none).toOption.getD []

/- ===================== theorems ===================== -/

/-- C2: for every positive concentration c and fragment size L,
compute_molarity_from_concentration returns exactly
c * 1e6 / (660 * L) (and has no side effects, being a pure function
here), and it returns an invalid-input error exactly when c ≤ 0 or
L ≤ 0. -/
theorem compute_molarity_correct (c L : ℚ) :
    (0 < c → 0 < L →
      compute_molarity_from_concentration c L = Except.ok (c * 1000000 / (660 * L)))
    ∧ ((∃ e, compute_molarity_from_concentration c L = Except.error e) ↔ c ≤ 0 ∨ L ≤ 0) := by
  unfold compute_molarity_from_concentration MW_PER_BP
  constructor
  · intro hc hL
    rw [if_neg (not_le.mpr hc), if_neg (not_le.mpr hL)]
  · by_cases hc : c ≤ 0
    · simp [hc]
    · by_cases hL : L ≤ 0
      · simp [hc, hL]
      · simp [hc, hL]

/-- Witness for C2 at concentration 3 ng/µl and fragment size 2 bp. -/
theorem compute_molarity_correct_witness :
    0 < (3:ℚ) ∧ 0 < (2:ℚ)
    ∧ compute_molarity_from_concentration 3 2 = Except.ok ((3:ℚ) * 1000000 / (660 * 2)) :=
  ⟨by norm_num, by norm_num, (compute_molarity_correct 3 2).1 (by norm_num) (by norm_num)⟩

/-- C3: every row compute_pool_volumes returns has its pre-dilution factor
chosen from the stock volume before any dilution with strict thresholds
0.2 and 0.795 µl (stock < 0.2 gives 10; 0.2 ≤ stock < 0.795 gives 5;
stock ≥ 0.795 gives 1, so 0.2 exactly gives 5 and 0.795 exactly gives 1),
and its final volume equals stock volume times the factor. -/
theorem pre_dilution_policy (rows : List PoolInputRow)
    (scaling_factor min_volume_ul : ℚ) (max_volume_ul total_reads_m : Option ℚ)
    (out : List PoolOutputRow)
    (hok : compute_pool_volumes rows scaling_factor min_volume_ul max_volume_ul total_reads_m
      = Except.ok out) :
    ∀ r ∈ out,
      (r.stockVolume < 0.2 → r.preDiluteFactor = 10)
      ∧ (0.2 ≤ r.stockVolume → r.stockVolume < 0.795 → r.preDiluteFactor = 5)
      ∧ (0.795 ≤ r.stockVolume → r.preDiluteFactor = 1)
      ∧ r.finalVolume = r.stockVolume * r.preDiluteFactor := by
  unfold compute_pool_volumes at hok
  split at hok
  · exact absurd hok (by simp)
  · split at hok
    · exact absurd hok (by simp)
    · split at hok
      · exact absurd hok (by simp)
      · rw [Except.ok.injEq] at hok
        subst hok
        intro r hr
        rcases List.mem_map.mp hr with ⟨a, _, rfl⟩
        unfold mkPoolOutputRow calculate_pre_dilute_factor
          PRE_DILUTE_THRESHOLD_10X PRE_DILUTE_THRESHOLD_5X
        dsimp only
        by_cases h10 : stockVolume scaling_factor a < 0.2
        · rw [if_pos h10]
          refine ⟨fun _ => rfl, fun hge _ => absurd h10 (not_lt.mpr hge), fun hge => ?_, rfl⟩
          exact absurd (lt_of_le_of_lt hge h10) (by norm_num)
        · rw [if_neg h10]
          by_cases h5 : stockVolume scaling_factor a < 0.795
          · rw [if_pos h5]
            exact ⟨fun hlt => absurd hlt h10, fun _ _ => rfl,
              fun hge => absurd h5 (not_lt.mpr hge), rfl⟩
          · rw [if_neg h5]
            exact ⟨fun hlt => absurd hlt h10,
              fun _ hlt => absurd hlt h5, fun _ => rfl, rfl⟩

/-- Witness for C3: the single example library (stock volume 1 µl)
through compute_pool_volumes at scaling factor 1. -/
theorem pre_dilution_policy_witness :
    compute_pool_volumes [examplePoolRow] 1 0 none none = Except.ok [exampleOutRow]
    ∧ ((exampleOutRow.stockVolume < 0.2 → exampleOutRow.preDiluteFactor = 10)
      ∧ (0.2 ≤ exampleOutRow.stockVolume → exampleOutRow.stockVolume < 0.795 →
          exampleOutRow.preDiluteFactor = 5)
      ∧ (0.795 ≤ exampleOutRow.stockVolume → exampleOutRow.preDiluteFactor = 1)
      ∧ exampleOutRow.finalVolume = exampleOutRow.stockVolume * exampleOutRow.preDiluteFactor) :=
  ⟨rfl, pre_dilution_policy [examplePoolRow] 1 0 none none [exampleOutRow] rfl
    exampleOutRow (List.mem_singleton.mpr rfl)⟩

/-- C1: every row of a compute_pool_volumes call has pool fraction equal
to its stock volume times its effective molarity, divided by the sum of
that product over exactly the rows passed into the call, and whenever
that sum is positive the returned pool fractions sum to exactly 1. -/
theorem pool_fractions_normalized (rows : List PoolInputRow)
    (scaling_factor min_volume_ul : ℚ) (max_volume_ul total_reads_m : Option ℚ)
    (out : List PoolOutputRow)
    (hok : compute_pool_volumes rows scaling_factor min_volume_ul max_volume_ul total_reads_m
      = Except.ok out) :
    out.length = rows.length
    ∧ (∀ i (hi : i < out.length) (hr : i < rows.length),
        (out.get ⟨i, hi⟩).poolFraction
          = stockVolume scaling_factor (rows.get ⟨i, hr⟩) * (rows.get ⟨i, hr⟩).adjustedLibNM
            / totalMolContribution scaling_factor rows)
    ∧ (0 < totalMolContribution scaling_factor rows →
        (out.map PoolOutputRow.poolFraction).sum = 1) := by
  unfold compute_pool_volumes at hok
  split at hok
  · exact absurd hok (by simp)
  · split at hok
    · exact absurd hok (by simp)
    · split at hok
      · exact absurd hok (by simp)
      · rw [Except.ok.injEq] at hok
        subst hok
        refine ⟨List.length_map rows _, ?_, ?_⟩
        · intro i hi hr
          rw [List.get_map]
          rfl
        · intro hpos
          rw [List.map_map]
          have hfun : (PoolOutputRow.poolFraction ∘
              mkPoolOutputRow scaling_factor (totalMolContribution scaling_factor rows) total_reads_m)
              = fun r => molContribution scaling_factor r
                * (totalMolContribution scaling_factor rows)⁻¹ := by
            funext r
            simp [mkPoolOutputRow, div_eq_mul_inv]
          rw [hfun, List.sum_map_mul_right]
          have hsum : (List.map (molContribution scaling_factor) rows).sum
              = totalMolContribution scaling_factor rows := rfl
          rw [hsum, mul_inv_cancel₀ (ne_of_gt hpos)]

/-- Witness for C1: two example libraries at scaling factor 1; the
positive total molar contribution is 1*1*1 + 1/2*4*2 = 5. -/
theorem pool_fractions_normalized_witness :
    compute_pool_volumes [examplePoolRow, examplePoolRow2] 1 0 none none
      = Except.ok (List.map
          (mkPoolOutputRow 1 (totalMolContribution 1 [examplePoolRow, examplePoolRow2]) none)
          [examplePoolRow, examplePoolRow2])
    ∧ 0 < totalMolContribution 1 [examplePoolRow, examplePoolRow2]
    ∧ ((List.map
          (mkPoolOutputRow 1 (totalMolContribution 1 [examplePoolRow, examplePoolRow2]) none)
          [examplePoolRow, examplePoolRow2]).map PoolOutputRow.poolFraction).sum = 1 := by
  have hpos : 0 < totalMolContribution 1 [examplePoolRow, examplePoolRow2] := by
    norm_num [totalMolContribution, molContribution, stockVolume, examplePoolRow, examplePoolRow2]
  exact ⟨rfl, hpos,
    (pool_fractions_normalized [examplePoolRow, examplePoolRow2] 1 0 none none _ rfl).2.2 hpos⟩

/-- C8: for every row of a successful compute_effective_molarity call,
the calculated-molarity column is filled with the value derived from
concentration and fragment size; the effective molarity (the Adjusted lib
nM column every downstream computation consumes) equals the empirical
value when one is supplied and strictly positive, and equals the
calculated value when the empirical value is missing, zero or
negative. -/
theorem effective_molarity_override (rows : List MolarityInputRow) (out : List MolarityOutputRow)
    (hok : compute_effective_molarity rows = Except.ok out) :
    out.length = rows.length
    ∧ ∀ i (hi : i < out.length) (hr : i < rows.length),
        (out.get ⟨i, hi⟩).calculatedNM
          = (rows.get ⟨i, hr⟩).finalNgUl * 1000000 / (660 * (rows.get ⟨i, hr⟩).adjustedPeakSize)
        ∧ (∀ e, (rows.get ⟨i, hr⟩).empiricalLibraryNM = some e → 0 < e →
            (out.get ⟨i, hi⟩).effectiveNM = e)
        ∧ ((rows.get ⟨i, hr⟩).empiricalLibraryNM = none →
            (out.get ⟨i, hi⟩).effectiveNM = (out.get ⟨i, hi⟩).calculatedNM)
        ∧ (∀ e, (rows.get ⟨i, hr⟩).empiricalLibraryNM = some e → e ≤ 0 →
            (out.get ⟨i, hi⟩).effectiveNM = (out.get ⟨i, hi⟩).calculatedNM)
        ∧ (out.get ⟨i, hi⟩).adjustedLibNM = (out.get ⟨i, hi⟩).effectiveNM := by
  induction rows generalizing out with
  | nil =>
    unfold compute_effective_molarity at hok
    rw [Except.ok.injEq] at hok
    subst hok
    exact ⟨rfl, fun i hi => absurd hi (by simp)⟩
  | cons r rs ih =>
    unfold compute_effective_molarity at hok
    cases hm : compute_molarity_from_concentration r.finalNgUl r.adjustedPeakSize with
    | error e =>
      rw [hm] at hok
      exact absurd hok (by simp)
    | ok nm =>
      rw [hm] at hok
      cases hrest : compute_effective_molarity rs with
      | error e =>
        rw [hrest] at hok
        exact absurd hok (by simp)
      | ok outs =>
        rw [hrest] at hok
        rw [Except.ok.injEq] at hok
        subst hok
        obtain ⟨ihlen, ihprop⟩ := ih outs hrest
        refine ⟨by simpa using ihlen, ?_⟩
        intro i hi hr
        cases i with
        | zero =>
          have hnm : nm = r.finalNgUl * 1000000 / (660 * r.adjustedPeakSize) := by
            unfold compute_molarity_from_concentration MW_PER_BP at hm
            split at hm
            · exact absurd hm (by simp)
            · split at hm
              · exact absurd hm (by simp)
              · rw [Except.ok.injEq] at hm
                exact hm.symm
          refine ⟨hnm, ?_, ?_, ?_, rfl⟩
          · intro e he hpos
            have he2 : r.empiricalLibraryNM = some e := he
            show effectiveChoice r.empiricalLibraryNM nm = e
            rw [he2]
            show (if 0 < e then e else nm) = e
            rw [if_pos hpos]
          · intro hnone
            have hnone2 : r.empiricalLibraryNM = none := hnone
            show effectiveChoice r.empiricalLibraryNM nm = nm
            rw [hnone2]
            rfl
          · intro e he hle
            have he2 : r.empiricalLibraryNM = some e := he
            show effectiveChoice r.empiricalLibraryNM nm = nm
            rw [he2]
            show (if 0 < e then e else nm) = nm
            rw [if_neg (not_lt.mpr hle)]
        | succ j =>
          exact ihprop j (by simpa using hi) (by simpa using hr)

/-- Witness for C8: one library at 66 ng/µl and 100 bp with a positive
5 nM empirical measurement; the effective molarity is the override 5. -/
theorem effective_molarity_override_witness :
    compute_effective_molarity [exampleMolarityRow] = Except.ok [exampleMolarityOut]
    ∧ 0 < (5:ℚ)
    ∧ exampleMolarityOut.effectiveNM = 5 :=
  ⟨rfl, by norm_num,
    ((effective_molarity_override [exampleMolarityRow] [exampleMolarityOut] rfl).2
      0 (by simp) (by simp)).2.1 5 rfl (by norm_num)⟩

/-- firstOccurrences keeps a sub-sequence of its input. -/
theorem sublist_firstOccurrences {α : Type} [DecidableEq α] (l : List α) :
    (firstOccurrences l).Sublist l := by
  induction l with
  | nil => simp [firstOccurrences]
  | cons a as ih =>
    rw [firstOccurrences]
    exact List.Sublist.cons₂ a (((firstOccurrences as).filter_sublist).trans ih)

/-- firstOccurrences has the same members as its input. -/
theorem mem_firstOccurrences {α : Type} [DecidableEq α] (l : List α) (x : α) :
    x ∈ firstOccurrences l ↔ x ∈ l := by
  induction l with
  | nil => simp [firstOccurrences]
  | cons a as ih =>
    rw [firstOccurrences]
    by_cases hxa : x = a
    · subst hxa; simp
    · simp only [List.mem_cons, List.mem_filter, ih]
      constructor
      · rintro (h | ⟨h, _⟩)
        · exact Or.inl h
        · exact Or.inr h
      · rintro (h | h)
        · exact Or.inl h
        · exact Or.inr ⟨h, by simpa using hxa⟩

/-- firstOccurrences never repeats a value. -/
theorem nodup_firstOccurrences {α : Type} [DecidableEq α] (l : List α) :
    (firstOccurrences l).Nodup := by
  induction l with
  | nil => simp [firstOccurrences]
  | cons a as ih =>
    rw [firstOccurrences]
    refine List.Nodup.cons ?_ (ih.filter _)
    intro hmem
    rw [List.mem_filter] at hmem
    simpa using hmem.2

/-- A name claimed by two different pre-pool definitions occurs at least
twice in the concatenated member lists. -/
theorem count_two_of_two_defs (prepool_definitions : List PrePoolDefinition)
    (name : String) (i j : Nat) (hi : i < prepool_definitions.length)
    (hj : j < prepool_definitions.length) (hij : i ≠ j)
    (hmi : name ∈ (prepool_definitions.get ⟨i, hi⟩).member_library_names)
    (hmj : name ∈ (prepool_definitions.get ⟨j, hj⟩).member_library_names) :
    2 ≤ (allPrepoolLibraries prepool_definitions).count name := by
  induction prepool_definitions generalizing i j with
  | nil => exact absurd hi (by simp)
  | cons d ds ih =>
    have hsplit : allPrepoolLibraries (d :: ds)
        = d.member_library_names ++ allPrepoolLibraries ds := rfl
    rw [hsplit, List.count_append]
    cases i with
    | zero =>
      cases j with
      | zero => exact absurd rfl hij
      | succ j2 =>
        have h1 : 0 < d.member_library_names.count name :=
          List.count_pos_iff.mpr hmi
        have h2 : 0 < (allPrepoolLibraries ds).count name := by
          refine List.count_pos_iff.mpr (List.mem_flatMap.mpr ?_)
          exact ⟨ds.get ⟨j2, by simpa using hj⟩, List.get_mem ds j2 _, hmj⟩
        omega
    | succ i2 =>
      cases j with
      | zero =>
        have h1 : 0 < d.member_library_names.count name :=
          List.count_pos_iff.mpr hmj
        have h2 : 0 < (allPrepoolLibraries ds).count name := by
          refine List.count_pos_iff.mpr (List.mem_flatMap.mpr ?_)
          exact ⟨ds.get ⟨i2, by simpa using hi⟩, List.get_mem ds i2 _, hmi⟩
        omega
      | succ j2 =>
        have hrec := ih i2 j2 (by simpa using hi) (by simpa using hj)
          (fun h => hij (by simpa using h)) hmi hmj
        omega

/-- C9: whenever some library name is a member of two different pre-pool
definitions, compute_with_prepools raises the multiple-pre-pools error (so
no plan is returned), and the reported duplicate list contains every name
that is a member of two different definitions, not just the first. -/
theorem duplicate_prepool_members_rejected (df : List PoolInputRow)
    (prepool_definitions : List PrePoolDefinition)
    (scaling_factor min_volume_ul : ℚ) (max_volume_ul total_reads_m : Option ℚ)
    (name : String) (i j : Nat) (hi : i < prepool_definitions.length)
    (hj : j < prepool_definitions.length) (hij : i ≠ j)
    (hmi : name ∈ (prepool_definitions.get ⟨i, hi⟩).member_library_names)
    (hmj : name ∈ (prepool_definitions.get ⟨j, hj⟩).member_library_names) :
    compute_with_prepools df prepool_definitions scaling_factor min_volume_ul
        max_volume_ul total_reads_m
      = Except.error (PrePoolingError.multiplePrepools
          (duplicatesIn (allPrepoolLibraries prepool_definitions)))
    ∧ ∀ (n : String) (k l : Nat) (hk : k < prepool_definitions.length)
        (hl : l < prepool_definitions.length), k ≠ l →
        n ∈ (prepool_definitions.get ⟨k, hk⟩).member_library_names →
        n ∈ (prepool_definitions.get ⟨l, hl⟩).member_library_names →
        n ∈ duplicatesIn (allPrepoolLibraries prepool_definitions) := by
  have hdup : (allPrepoolLibraries prepool_definitions).length
      ≠ (firstOccurrences (allPrepoolLibraries prepool_definitions)).length := by
    intro heq
    have hsub := sublist_firstOccurrences (allPrepoolLibraries prepool_definitions)
    have heqlist := hsub.eq_of_length heq.symm
    have hnodup : (allPrepoolLibraries prepool_definitions).Nodup := by
      rw [← heqlist]
      exact nodup_firstOccurrences _
    have hcount := count_two_of_two_defs prepool_definitions name i j hi hj hij hmi hmj
    have hle := List.nodup_iff_count_le_one.mp hnodup name
    omega
  constructor
  · have hnil : prepool_definitions ≠ [] := by
      intro h
      rw [h] at hi
      exact absurd hi (by simp)
    unfold compute_with_prepools
    rw [if_neg (by simp [List.isEmpty_iff, hnil])]
    dsimp only
    rw [if_pos hdup]
  · intro n k l hk hl hkl hmk hml
    have hcount := count_two_of_two_defs prepool_definitions n k l hk hl hkl hmk hml
    unfold duplicatesIn
    refine List.mem_filter.mpr ⟨?_, ?_⟩
    · refine (mem_firstOccurrences _ _).mpr (List.mem_flatMap.mpr ?_)
      exact ⟨prepool_definitions.get ⟨k, hk⟩, List.get_mem _ k _, hmk⟩
    · exact decide_eq_true (by omega)

/-- Witness for C9: two definitions both claiming LibA and LibB; the
duplicate report lists both names. -/
theorem duplicate_prepool_members_rejected_witness :
    (0:Nat) ≠ 1
    ∧ "LibA" ∈ exampleDupDef1.member_library_names
    ∧ "LibA" ∈ exampleDupDef2.member_library_names
    ∧ compute_with_prepools [] [exampleDupDef1, exampleDupDef2] 1 0 none none
      = Except.error (PrePoolingError.multiplePrepools
          (duplicatesIn (allPrepoolLibraries [exampleDupDef1, exampleDupDef2])))
    ∧ duplicatesIn (allPrepoolLibraries [exampleDupDef1, exampleDupDef2]) = ["LibA", "LibB"] := by
  refine ⟨by decide, by decide, by decide, ?_, by decide⟩
  exact (duplicate_prepool_members_rejected [] [exampleDupDef1, exampleDupDef2] 1 0 none none
    "LibA" 0 1 (by decide) (by decide) (by decide) (by decide) (by decide)).1

/-- C6 counterexample: a frame whose project ids first occur in the order
B then A, yet summarize_by_project emits the summary row of A before that
of B — pandas groupby sorts the keys, it does not keep first-occurrence
(stable input) order. -/
theorem summarize_by_project_order_counterexample :
    exampleSummaryFrame.rows.map SummaryInputRow.projectID = ["B", "A"]
    ∧ firstOccurrences (exampleSummaryFrame.rows.map SummaryInputRow.projectID) = ["B", "A"]
    ∧ summarize_by_project exampleSummaryFrame = Except.ok exampleSummaryOutput
    ∧ exampleSummaryOutput.map ProjectSummaryRow.projectID = ["A", "B"] :=
  ⟨rfl, by decide, rfl, by decide⟩

/-- Python string order is total. -/
theorem pyLexLe_total (as bs : List Char) : pyLexLe as bs = true ∨ pyLexLe bs as = true := by
  induction as generalizing bs with
  | nil => exact Or.inl rfl
  | cons a as2 ih =>
    cases bs with
    | nil => exact Or.inr rfl
    | cons b bs2 =>
      unfold pyLexLe
      rcases Nat.lt_trichotomy a.toNat b.toNat with h | h | h
      · left
        rw [if_pos h]
      · rw [if_neg (by omega), if_neg (by omega), if_neg (by omega), if_neg (by omega)]
        exact ih bs2
      · right
        rw [if_pos h]

/-- Python string order is transitive. -/
theorem pyLexLe_trans (as bs cs : List Char) (h1 : pyLexLe as bs = true)
    (h2 : pyLexLe bs cs = true) : pyLexLe as cs = true := by
  induction as generalizing bs cs with
  | nil => rfl
  | cons a as2 ih =>
    cases bs with
    | nil => exact absurd h1 (by simp [pyLexLe])
    | cons b bs2 =>
      cases cs with
      | nil => exact absurd h2 (by simp [pyLexLe])
      | cons c cs2 =>
        unfold pyLexLe at h1 h2 ⊢
        by_cases hab : a.toNat < b.toNat
        · rw [if_pos hab] at h1
          by_cases hbc : b.toNat < c.toNat
          · rw [if_pos (by omega)]
          · rw [if_neg hbc] at h2
            by_cases hcb : c.toNat < b.toNat
            · rw [if_pos hcb] at h2
              exact absurd h2 (by simp)
            · rw [if_pos (by omega)]
        · rw [if_neg hab] at h1
          by_cases hba : b.toNat < a.toNat
          · rw [if_pos hba] at h1
            exact absurd h1 (by simp)
          · rw [if_neg hba] at h1
            by_cases hbc : b.toNat < c.toNat
            · rw [if_pos (by omega)]
            · rw [if_neg hbc] at h2
              by_cases hcb : c.toNat < b.toNat
              · rw [if_pos hcb] at h2
                exact absurd h2 (by simp)
              · rw [if_neg hcb] at h2
                rw [if_neg (by omega), if_neg (by omega)]
                exact ih bs2 cs2 h1 h2

/-- C6 amended: summarize_by_project raises the missing-column error when
the project-id column is absent; otherwise it emits exactly one summary
row per distinct project id (with that group's library count and summed
stock volume and pool fraction), ordered by ascending project id — the
pandas groupby default sort order — rather than by first occurrence in
the input. -/
theorem summarize_by_project_grouping (df : SummaryFrame) :
    (df.hasProjectID = false → summarize_by_project df = Except.error msgMissingProjectID)
    ∧ ∀ out, summarize_by_project df = Except.ok out →
        List.Sorted (fun a b : String => pyStrLe a b = true) (out.map ProjectSummaryRow.projectID)
        ∧ (out.map ProjectSummaryRow.projectID).Nodup
        ∧ (∀ k, k ∈ out.map ProjectSummaryRow.projectID
            ↔ k ∈ df.rows.map SummaryInputRow.projectID)
        ∧ ∀ s ∈ out,
            s.numberOfLibraries = (df.rows.filter (fun r => r.projectID = s.projectID)).length
            ∧ s.totalVolume = ((df.rows.filter (fun r => r.projectID = s.projectID)).map
                SummaryInputRow.stockVolume).sum
            ∧ s.poolFraction = ((df.rows.filter (fun r => r.projectID = s.projectID)).map
                SummaryInputRow.poolFraction).sum := by
  constructor
  · intro h
    unfold summarize_by_project
    rw [if_pos h]
  · intro out hok
    unfold summarize_by_project at hok
    split at hok
    · exact absurd hok (by simp)
    · rw [Except.ok.injEq] at hok
      subst hok
      have hproj : ((pandasGroupKeys (df.rows.map SummaryInputRow.projectID)).map (fun k =>
          ({ projectID := k
             numberOfLibraries := (df.rows.filter (fun r => r.projectID = k)).length
             totalVolume := ((df.rows.filter (fun r => r.projectID = k)).map
               SummaryInputRow.stockVolume).sum
             poolFraction := ((df.rows.filter (fun r => r.projectID = k)).map
               SummaryInputRow.poolFraction).sum } : ProjectSummaryRow))).map
          ProjectSummaryRow.projectID
          = pandasGroupKeys (df.rows.map SummaryInputRow.projectID) := by
        rw [List.map_map]
        exact List.map_id' _
      letI : IsTotal String (fun a b : String => pyStrLe a b = true) :=
        ⟨fun a b => pyLexLe_total a.data b.data⟩
      letI : IsTrans String (fun a b : String => pyStrLe a b = true) :=
        ⟨fun a b c => pyLexLe_trans a.data b.data c.data⟩
      refine ⟨?_, ?_, ?_, ?_⟩
      · rw [hproj]
        exact List.sorted_insertionSort _ _
      · rw [hproj]
        exact ((List.perm_insertionSort _ _).nodup_iff).mpr (nodup_firstOccurrences _)
      · intro k
        rw [hproj]
        unfold pandasGroupKeys
        rw [(List.perm_insertionSort _ _).mem_iff, mem_firstOccurrences]
      · intro s hs
        rcases List.mem_map.mp hs with ⟨k, _, rfl⟩
        exact ⟨rfl, rfl, rfl⟩

/-- Witness for C6 amended: the example frame summarizes successfully and
its output keys are sorted ascending. -/
theorem summarize_by_project_grouping_witness :
    summarize_by_project exampleSummaryFrame = Except.ok exampleSummaryOutput
    ∧ List.Sorted (fun a b : String => pyStrLe a b = true)
        (exampleSummaryOutput.map ProjectSummaryRow.projectID) :=
  ⟨rfl, ((summarize_by_project_grouping exampleSummaryFrame).2 exampleSummaryOutput rfl).1⟩

/-- C10 (code bug): the validate_library_counts check of PrePoolingPlan
reads the counts being validated out of pydantic info.data, where they are
not yet present, so both read as 0 and construction rejects every plan
with a non-zero total — including counts that do sum correctly.  The
model's own documented example (48 libraries = 11 in pre-pools + 37
standalone) is rejected, and a fully valid compute_with_prepools run over
three libraries with one two-member pre-pool (2 + 1 = 3 exactly) fails at
plan construction instead of returning the plan. -/
theorem prepooling_plan_count_check_bug :
    (11 + 37 = 48 ∧ 2 + 1 = 3)
    ∧ mkPrePoolingPlan [] [] [] 48 11 37 = Except.error msgLibraryCountsDoNotSum
    ∧ compute_with_prepools examplePlanDf [examplePlanDef] 1 0 none none
      = Except.error (PrePoolingError.subError msgLibraryCountsDoNotSum) := by
  refine ⟨⟨rfl, rfl⟩, rfl, ?_⟩
  norm_num +decide [compute_with_prepools, computePrepoolResults, create_prepool_from_selection,
    compute_pool_volumes, mkPrePoolCalculationResult, mkPrePoolingPlan, examplePlanDf,
    examplePlanDef, examplePlanRow, allPrepoolLibraries, firstOccurrences, invalidMaxVolume,
    totalMolContribution, molContribution, stockVolume, mkPoolOutputRow, prepoolCombinedTable,
    prepoolStandaloneRows, prepoolSyntheticRow, normalizePrepoolId, calculate_pre_dilute_factor,
    PRE_DILUTE_THRESHOLD_10X, PRE_DILUTE_THRESHOLD_5X]

/-- C4: every pre-pool created by create_prepool_from_selection has
effective molarity Σ(target_reads / 10) / Σ(final_volume) over its member
volume rows (with total volume and target reads the respective sums),
while compute_subpool_properties gives a sub-pool the molarity
Σ(effective_molarity × final_volume) / Σ(final_volume) over its merged
member rows; both formulas hold exactly, and they genuinely differ: on
the same one-member set (2 nM, 10 M reads, 5 µl) the pre-pool convention
yields 1/5 nM and the sub-pool convention 2 nM. -/
theorem prepool_and_subpool_molarity_formulas :
    (∀ df selected prepool_name s mn mx result,
      create_prepool_from_selection df selected prepool_name s mn mx = Except.ok result →
        result.calculated_nm
          = (result.member_volumes.map (fun r => r.targetReadsM / 10)).sum
            / (result.member_volumes.map PoolOutputRow.finalVolume).sum
        ∧ result.total_volume_ul = (result.member_volumes.map PoolOutputRow.finalVolume).sum
        ∧ result.target_reads_m = (result.member_volumes.map PoolOutputRow.targetReadsM).sum)
    ∧ (∀ df_libraries df_volumes subpool_id record,
      compute_subpool_properties df_libraries df_volumes subpool_id = Except.ok record →
        record.calculated_nm
          = ((mergeOnLibraryName df_libraries df_volumes).map
              (fun p => p.1.adjustedLibNM * p.2.finalVolume)).sum
            / ((mergeOnLibraryName df_libraries df_volumes).map
              (fun p => p.2.finalVolume)).sum
        ∧ record.total_volume_ul
          = ((mergeOnLibraryName df_libraries df_volumes).map (fun p => p.2.finalVolume)).sum
        ∧ record.target_reads_m
          = ((mergeOnLibraryName df_libraries df_volumes).map (fun p => p.1.targetReadsM)).sum)
    ∧ ((create_prepool_from_selection [exampleC4Row] ["D"] "pp" 1 0 none).map
        PrePoolCalculationResult.calculated_nm = Except.ok (1/5)
      ∧ (compute_subpool_properties [exampleC4Row] exampleC4Volumes "d_pool").map
        SubPoolRecord.calculated_nm = Except.ok 2
      ∧ (1/5 : ℚ) ≠ 2) := by
  refine ⟨?_, ?_, ?_, ?_, by norm_num⟩
  · intro df selected prepool_name s mn mx result hok
    unfold create_prepool_from_selection at hok
    dsimp only at hok
    split at hok
    · exact absurd hok (by simp)
    · split at hok
      · exact absurd hok (by simp)
      · cases hvol : compute_pool_volumes
            (df.filter (fun r => selected.contains r.libraryName)) s mn mx none with
        | error e =>
          rw [hvol] at hok
          exact absurd hok (by simp)
        | ok vols =>
          rw [hvol] at hok
          dsimp only at hok
          unfold mkPrePoolCalculationResult at hok
          split_ifs at hok
          all_goals first
            | exact absurd le_rfl ‹¬(0:ℚ) ≤ 0›
            | (rw [Except.ok.injEq] at hok
               subst hok
               exact ⟨rfl, rfl, rfl⟩)
            | exact absurd hok (by simp)
  · intro df_libraries df_volumes subpool_id record hok
    unfold compute_subpool_properties at hok
    unfold mkSubPoolRecord at hok
    dsimp only at hok
    split_ifs at hok
    all_goals first
      | exact absurd le_rfl ‹¬(0:ℚ) ≤ 0›
      | (rw [Except.ok.injEq] at hok
         subst hok
         exact ⟨rfl, rfl, rfl⟩)
      | exact absurd hok (by simp)
  · norm_num +decide [create_prepool_from_selection, compute_pool_volumes,
      mkPrePoolCalculationResult, exampleC4Row, invalidMaxVolume, totalMolContribution,
      molContribution, stockVolume, mkPoolOutputRow, normalizePrepoolId,
      calculate_pre_dilute_factor, PRE_DILUTE_THRESHOLD_10X, PRE_DILUTE_THRESHOLD_5X,
      Except.map]
  · norm_num +decide [compute_subpool_properties, mkSubPoolRecord, mergeOnLibraryName,
      exampleC4Volumes, compute_pool_volumes, exampleC4Row, invalidMaxVolume,
      totalMolContribution, molContribution, stockVolume, mkPoolOutputRow,
      calculate_pre_dilute_factor, PRE_DILUTE_THRESHOLD_10X, PRE_DILUTE_THRESHOLD_5X,
      Except.map, Except.toOption, Option.getD, Function.comp]

/-- Witness for C4: the concrete one-member pre-pool, whose molarity 1/5
equals the target-reads formula over its member volumes. -/
theorem prepool_and_subpool_molarity_formulas_witness :
    create_prepool_from_selection [exampleC4Row] ["D"] "pp" 1 0 none
      = Except.ok exampleC4Result
    ∧ exampleC4Result.calculated_nm
      = (exampleC4Result.member_volumes.map (fun r => r.targetReadsM / 10)).sum
        / (exampleC4Result.member_volumes.map PoolOutputRow.finalVolume).sum := by
  have hok : create_prepool_from_selection [exampleC4Row] ["D"] "pp" 1 0 none
      = Except.ok exampleC4Result := by
    norm_num +decide [create_prepool_from_selection, compute_pool_volumes,
      mkPrePoolCalculationResult, exampleC4Row, exampleC4Result, invalidMaxVolume,
      totalMolContribution, molContribution, stockVolume, mkPoolOutputRow, normalizePrepoolId,
      calculate_pre_dilute_factor, PRE_DILUTE_THRESHOLD_10X, PRE_DILUTE_THRESHOLD_5X]
  exact ⟨hok, (prepool_and_subpool_molarity_formulas.1 [exampleC4Row] ["D"] "pp" 1 0 none
    exampleC4Result hok).1⟩

/-- Field content of a successful create_prepool_from_selection call: the
stored definition derives its id from the display name, and the scalar
fields are the member-volume sums. -/
theorem create_prepool_fields (df : List PoolInputRow) (selected : List String)
    (prepool_name : String) (s mn : ℚ) (mx : Option ℚ) (result : PrePoolCalculationResult)
    (hok : create_prepool_from_selection df selected prepool_name s mn mx = Except.ok result) :
    result.prepool_definition
      = { prepool_id := normalizePrepoolId prepool_name, prepool_name := prepool_name,
          member_library_names := selected }
    ∧ result.total_volume_ul = (result.member_volumes.map PoolOutputRow.finalVolume).sum
    ∧ result.target_reads_m = (result.member_volumes.map PoolOutputRow.targetReadsM).sum := by
  unfold create_prepool_from_selection at hok
  dsimp only at hok
  split at hok
  · exact absurd hok (by simp)
  · split at hok
    · exact absurd hok (by simp)
    · cases hvol : compute_pool_volumes
          (df.filter (fun r => selected.contains r.libraryName)) s mn mx none with
      | error e =>
        rw [hvol] at hok
        exact absurd hok (by simp)
      | ok vols =>
        rw [hvol] at hok
        dsimp only at hok
        unfold mkPrePoolCalculationResult at hok
        split_ifs at hok
        all_goals first
          | exact absurd le_rfl ‹¬(0:ℚ) ≤ 0›
          | (rw [Except.ok.injEq] at hok
             subst hok
             exact ⟨rfl, rfl, rfl⟩)
          | exact absurd hok (by simp)

/-- A successful computePrepoolResults run yields one result per
definition, each a successful create_prepool_from_selection over that
definition's members and display name. -/
theorem computePrepoolResults_spec (df : List PoolInputRow)
    (prepool_definitions : List PrePoolDefinition) (s mn : ℚ) (mx : Option ℚ)
    (results : List PrePoolCalculationResult)
    (hok : computePrepoolResults df prepool_definitions s mn mx = Except.ok results) :
    results.length = prepool_definitions.length
    ∧ ∀ i (hi : i < results.length) (hd : i < prepool_definitions.length),
        create_prepool_from_selection df
          (prepool_definitions.get ⟨i, hd⟩).member_library_names
          (prepool_definitions.get ⟨i, hd⟩).prepool_name s mn mx
          = Except.ok (results.get ⟨i, hi⟩) := by
  induction prepool_definitions generalizing results with
  | nil =>
    unfold computePrepoolResults at hok
    rw [Except.ok.injEq] at hok
    subst hok
    exact ⟨rfl, fun i hi => absurd hi (by simp)⟩
  | cons d ds ih =>
    unfold computePrepoolResults at hok
    cases hd1 : create_prepool_from_selection df d.member_library_names d.prepool_name s mn mx with
    | error e =>
      rw [hd1] at hok
      exact absurd hok (by simp)
    | ok r =>
      rw [hd1] at hok
      cases hrest : computePrepoolResults df ds s mn mx with
      | error e =>
        rw [hrest] at hok
        exact absurd hok (by simp)
      | ok rs =>
        rw [hrest] at hok
        rw [Except.ok.injEq] at hok
        subst hok
        obtain ⟨ihlen, ihprop⟩ := ih rs hrest
        refine ⟨by simpa using ihlen, ?_⟩
        intro i hi hd
        cases i with
        | zero => exact hd1
        | succ j => exact ihprop j (by simpa using hi) (by simpa using hd)

/-- C7 counterexample: with a definition whose prepool_id is PP7 but whose
display name is My Pool, the synthetic super-library row in the combined
table is named my_pool — the lowercased, underscored display name — not
the definition's own id PP7. -/
theorem prepool_synthetic_name_counterexample :
    exampleC7Def.prepool_id = "PP7"
    ∧ normalizePrepoolId exampleC7Def.prepool_name = "my_pool"
    ∧ (computePrepoolResults examplePlanDf [exampleC7Def] 1 0 none).map
        (fun results => (prepoolCombinedTable examplePlanDf [exampleC7Def] results).map
          PoolInputRow.libraryName)
      = Except.ok ["C", "my_pool"]
    ∧ ("my_pool" : String) ≠ "PP7" := by
  refine ⟨rfl, by decide, ?_, by decide⟩
  norm_num +decide [computePrepoolResults, create_prepool_from_selection, compute_pool_volumes,
    mkPrePoolCalculationResult, examplePlanDf, examplePlanRow, exampleC7Def, invalidMaxVolume,
    totalMolContribution, molContribution, stockVolume, mkPoolOutputRow, normalizePrepoolId,
    calculate_pre_dilute_factor, PRE_DILUTE_THRESHOLD_10X, PRE_DILUTE_THRESHOLD_5X,
    Except.map, prepoolCombinedTable, prepoolStandaloneRows, prepoolSyntheticRow,
    allPrepoolLibraries]

/-- C7 amended: the combined table compute_with_prepools hands to the
final single-stage run is the rows claimed by no pre-pool, in order,
followed by exactly one synthetic row per definition; each synthetic
row's molarity is the computed prepool_nM, its target reads the sum of
the members' target reads, its available volume the sum of the members'
final volumes, and its library name is the definition's display name
lowercased with spaces replaced by underscores (which equals the
definition's prepool_id only when that id was derived the same way). -/
theorem prepool_combined_table_composition (df : List PoolInputRow)
    (prepool_definitions : List PrePoolDefinition)
    (s mn : ℚ) (mx : Option ℚ) (results : List PrePoolCalculationResult)
    (hok : computePrepoolResults df prepool_definitions s mn mx = Except.ok results) :
    (prepoolCombinedTable df prepool_definitions results).take
        (prepoolStandaloneRows df prepool_definitions).length
      = df.filter (fun r =>
          (allPrepoolLibraries prepool_definitions).contains r.libraryName = false)
    ∧ (prepoolCombinedTable df prepool_definitions results).drop
        (prepoolStandaloneRows df prepool_definitions).length
      = results.map prepoolSyntheticRow
    ∧ results.length = prepool_definitions.length
    ∧ ∀ i (hi : i < results.length) (hd : i < prepool_definitions.length),
        prepoolSyntheticRow (results.get ⟨i, hi⟩)
          = { libraryName :=
                normalizePrepoolId (prepool_definitions.get ⟨i, hd⟩).prepool_name
              projectID := "PrePool"
              adjustedLibNM := (results.get ⟨i, hi⟩).calculated_nm
              targetReadsM :=
                ((results.get ⟨i, hi⟩).member_volumes.map PoolOutputRow.targetReadsM).sum
              totalVolume :=
                some (((results.get ⟨i, hi⟩).member_volumes.map PoolOutputRow.finalVolume).sum) } := by
  obtain ⟨hlen, hper⟩ := computePrepoolResults_spec df prepool_definitions s mn mx results hok
  refine ⟨List.take_left _ _, List.drop_left _ _, hlen, ?_⟩
  intro i hi hd
  obtain ⟨hdef, hvol, htr⟩ := create_prepool_fields df
    (prepool_definitions.get ⟨i, hd⟩).member_library_names
    (prepool_definitions.get ⟨i, hd⟩).prepool_name s mn mx
    (results.get ⟨i, hi⟩) (hper i hi hd)
  unfold prepoolSyntheticRow
  rw [hdef, ← hvol, ← htr]

/-- Witness for C7 amended: the three-library frame with one two-member
pre-pool; the tail of the combined table is exactly the synthetic
super-library rows. -/
theorem prepool_combined_table_composition_witness :
    computePrepoolResults examplePlanDf [examplePlanDef] 1 0 none = Except.ok exampleC7Results
    ∧ (prepoolCombinedTable examplePlanDf [examplePlanDef] exampleC7Results).drop
        (prepoolStandaloneRows examplePlanDf [examplePlanDef]).length
      = exampleC7Results.map prepoolSyntheticRow := by
  have hok : computePrepoolResults examplePlanDf [examplePlanDef] 1 0 none
      = Except.ok exampleC7Results := by
    norm_num +decide [computePrepoolResults, create_prepool_from_selection, compute_pool_volumes,
      mkPrePoolCalculationResult, examplePlanDf, examplePlanRow, examplePlanDef, exampleC7Results,
      invalidMaxVolume, totalMolContribution, molContribution, stockVolume, mkPoolOutputRow,
      normalizePrepoolId, calculate_pre_dilute_factor, PRE_DILUTE_THRESHOLD_10X,
      PRE_DILUTE_THRESHOLD_5X, Except.toOption, Option.getD]
  exact ⟨hok, (prepool_combined_table_composition examplePlanDf [examplePlanDef] 1 0 none
    exampleC7Results hok).2.1⟩

/-- firstOccurrences of a constant block is its value (or nothing when the
block is empty). -/
theorem firstOccurrences_replicate {α : Type} [DecidableEq α] (n : Nat) (a : α) :
    firstOccurrences (List.replicate n a) = if n = 0 then [] else [a] := by
  induction n with
  | zero => rfl
  | succ m ih =>
    rw [List.replicate_succ, firstOccurrences, ih]
    split
    · simp
    · simp

/-- firstOccurrences across a leading constant block. -/
theorem firstOccurrences_replicate_append {α : Type} [DecidableEq α] (n : Nat) (a : α)
    (l : List α) (h : 0 < n) :
    firstOccurrences (List.replicate n a ++ l)
      = a :: (firstOccurrences l).filter (fun x => x ≠ a) := by
  induction n with
  | zero => exact absurd h (by simp)
  | succ m ih =>
    rw [List.replicate_succ, List.cons_append, firstOccurrences]
    cases Nat.eq_zero_or_pos m with
    | inl h0 =>
      subst h0
      simp
    | inr hpos =>
      rw [ih hpos]
      simp [List.filter_filter]

/-- Zipping a list with that many copies of one label pairs every element
with the label. -/
theorem zip_replicate_label {α β : Type} (l : List α) (c : β) :
    l.zip (List.replicate l.length c) = l.map (fun a => (a, c)) := by
  induction l with
  | nil => rfl
  | cons x xs ih =>
    rw [List.length_cons, List.replicate_succ, List.zip_cons_cons, ih, List.map_cons]

/-- The grouping column of a block is constant. -/
theorem groupBlock_map_groupValue (g : String) (s n : Nat) :
    (groupBlock g s n).map SubpoolInputRow.groupValue = List.replicate n g := by
  unfold groupBlock
  rw [List.map_map]
  rw [show (SubpoolInputRow.groupValue ∘ fun i =>
    ({ idx := s + i, groupValue := g } : SubpoolInputRow)) = fun _ => g from rfl]
  rw [List.map_const', List.length_range]

/-- A block has its declared size. -/
theorem groupBlock_length (g : String) (s n : Nat) : (groupBlock g s n).length = n := by
  simp [groupBlock]

/-- Filtering a block by its own group value keeps it whole. -/
theorem groupBlock_filter_self (g : String) (s n : Nat) :
    (groupBlock g s n).filter (fun r => r.groupValue = g) = groupBlock g s n := by
  refine List.filter_eq_self.mpr ?_
  intro r hr
  rcases List.mem_map.mp hr with ⟨i, _, rfl⟩
  exact decide_eq_true rfl

/-- Filtering a block by a different group value empties it. -/
theorem groupBlock_filter_other (g k : String) (s n : Nat) (h : g ≠ k) :
    (groupBlock g s n).filter (fun r => r.groupValue = k) = [] := by
  refine List.filter_eq_nil_iff.mpr ?_
  intro r hr
  rcases List.mem_map.mp hr with ⟨i, _, rfl⟩
  simpa using h

set_option maxRecDepth 40000 in
/-- C5 counterexample: create_subpool_definitions does not behave as
claimed.  With two interleaved one-row groups (B at index 0, A at index
1) the row of group B receives SubPool ID A_pool, because labels are
generated in sorted group order but written back positionally.  And a
150-row group preceded by 20 rows of another project, capacity 96, is cut
at absolute row indices 96 and 192 — multiples of the capacity — into
chunks of 76 and 74 rows, not into the claimed 96 and 54. -/
theorem create_subpool_definitions_counterexample :
    create_subpool_definitions ([⟨0, "B"⟩, ⟨1, "A"⟩] : List SubpoolInputRow) 96
      = [(⟨0, "B"⟩, "A_pool"), (⟨1, "A"⟩, "B_pool")]
    ∧ countLabel ("B" ++ "_pool_1")
        (create_subpool_definitions (groupBlock "A" 0 20 ++ groupBlock "B" 20 150) 96) = 76
    ∧ countLabel ("B" ++ "_pool_2")
        (create_subpool_definitions (groupBlock "A" 0 20 ++ groupBlock "B" 20 150) 96) = 74
    ∧ countLabel ("B" ++ "_pool_3")
        (create_subpool_definitions (groupBlock "A" 0 20 ++ groupBlock "B" 20 150) 96) = 0 := by
  decide

set_option maxRecDepth 40000 in
/-- C5 amended: when the input is arranged in contiguous blocks in
ascending group order (as the positional write-back of the SubPool ID
column requires for the labels to land on their own groups), every group
of size at most the capacity becomes one sub-pool named
"(group)_pool" on each of its rows; an oversized group is split at
absolute row-index multiples of the capacity into 1-based-numbered
chunks "(group)_pool_i", so a 150-row group with capacity 96 yields the
claimed sizes 96 and 54 exactly when it starts at absolute index 0,
and, for example, sizes 76 and 74 when 20 rows of an earlier group
precede it. -/
theorem create_subpool_definitions_amended (gA gB : String) (nA nB cap : Nat)
    (hle : pyStrLe gA gB = true) (hne : gA ≠ gB)
    (hA0 : 0 < nA) (hAc : nA ≤ cap) (hB0 : 0 < nB) (hBc : nB ≤ cap) :
    (create_subpool_definitions (groupBlock gA 0 nA ++ groupBlock gB nA nB) cap
      = (groupBlock gA 0 nA).map (fun r => (r, gA ++ "_pool"))
        ++ (groupBlock gB nA nB).map (fun r => (r, gB ++ "_pool")))
    ∧ countLabel ("P" ++ "_pool_1") (create_subpool_definitions (groupBlock "P" 0 150) 96) = 96
    ∧ countLabel ("P" ++ "_pool_2") (create_subpool_definitions (groupBlock "P" 0 150) 96) = 54
    ∧ countLabel ("B" ++ "_pool_1")
        (create_subpool_definitions (groupBlock "A" 0 20 ++ groupBlock "B" 20 150) 96) = 76
    ∧ countLabel ("B" ++ "_pool_2")
        (create_subpool_definitions (groupBlock "A" 0 20 ++ groupBlock "B" 20 150) 96) = 74 := by
  refine ⟨?_, by decide, by decide, by decide, by decide⟩
  have hkeys : (groupBlock gA 0 nA ++ groupBlock gB nA nB).map SubpoolInputRow.groupValue
      = List.replicate nA gA ++ List.replicate nB gB := by
    rw [List.map_append, groupBlock_map_groupValue, groupBlock_map_groupValue]
  have hfo : firstOccurrences
      ((groupBlock gA 0 nA ++ groupBlock gB nA nB).map SubpoolInputRow.groupValue)
      = [gA, gB] := by
    rw [hkeys, firstOccurrences_replicate_append nA gA _ hA0, firstOccurrences_replicate nB gB,
      if_neg (by omega)]
    simp [Ne.symm hne]
  have hsorted : pandasGroupKeys
      ((groupBlock gA 0 nA ++ groupBlock gB nA nB).map SubpoolInputRow.groupValue)
      = [gA, gB] := by
    unfold pandasGroupKeys
    rw [hfo]
    simp [List.insertionSort, List.orderedInsert, hle]
  have hsegs : subpoolIdsSegments cap (groupBlock gA 0 nA ++ groupBlock gB nA nB)
      = List.replicate nA (gA ++ "_pool") ++ List.replicate nB (gB ++ "_pool") := by
    unfold subpoolIdsSegments
    rw [hsorted, List.flatMap_cons, List.flatMap_cons, List.flatMap_nil, List.append_nil]
    rw [List.filter_append, List.filter_append]
    rw [groupBlock_filter_self gA 0 nA, groupBlock_filter_other gB gA nA nB (Ne.symm hne),
      List.append_nil]
    rw [groupBlock_filter_other gA gB 0 nA hne, groupBlock_filter_self gB nA nB,
      List.nil_append]
    unfold chunkLabels
    rw [if_pos (by rw [groupBlock_length]; exact hAc),
      if_pos (by rw [groupBlock_length]; exact hBc), groupBlock_length, groupBlock_length]
  unfold create_subpool_definitions
  rw [hsegs]
  rw [List.zip_append (by rw [groupBlock_length, List.length_replicate])]
  rw [show List.replicate nA (gA ++ "_pool")
    = List.replicate (groupBlock gA 0 nA).length (gA ++ "_pool") by rw [groupBlock_length]]
  rw [show List.replicate nB (gB ++ "_pool")
    = List.replicate (groupBlock gB nA nB).length (gB ++ "_pool") by rw [groupBlock_length]]
  rw [zip_replicate_label, zip_replicate_label]

/-- Witness for C5 amended: two one-row groups A then B with capacity 96
get labels A_pool and B_pool on their own rows. -/
theorem create_subpool_definitions_amended_witness :
    (pyStrLe "A" "B" = true ∧ "A" ≠ "B" ∧ 0 < 1 ∧ 1 ≤ 96)
    ∧ create_subpool_definitions (groupBlock "A" 0 1 ++ groupBlock "B" 1 1) 96
      = (groupBlock "A" 0 1).map (fun r => (r, "A" ++ "_pool"))
        ++ (groupBlock "B" 1 1).map (fun r => (r, "B" ++ "_pool")) :=
  ⟨⟨by decide, by decide, by decide, by decide⟩,
    (create_subpool_definitions_amended "A" "B" 1 1 96 (by decide) (by decide)
      (by decide) (by decide) (by decide) (by decide)).1⟩
